import Mathlib

/-!
Verification of the fetch-state tracker (`useFetch` in `src/src/App.tsx`),
the root view (`App` in `src/src/App.tsx`) and the button
(`src/src/components/Button/Button.tsx`) of the PracticaReact repository.

The hook keeps three React state cells (`data`, `loading`, `error`,
lines 80-82 of App.tsx).  An effect keyed on `url` (lines 88-127) creates an
`AbortController`, sets `loading := true`, runs `fetchData`, and returns a
cleanup that calls `controller.abort()`.  `fetchData` awaits `fetch`, throws
`Error("Error en la petición")` on a non-ok status, otherwise parses the body
as JSON; the `catch` stores any thrown/rejected error in `error`, and the
`finally` sets `loading := false`.

The embedding models the three state cells as a record `Params` (the name the
source gives to the record the hook returns) and each asynchronous settlement of a
request as an `Outcome`.  The event-loop behaviour of the hook over one mount
is a left fold of `step` over a list of events: `effectRun` (the effect body
runs, at mount or after `url` changed; the cleanup of the previous effect has
already called `abort()` on the previous controller) and `complete out` (one
in-flight request settles with outcome `out` and its `then`/`catch`/`finally`
handlers run on the live state cells).  The source applies those handlers
without any check that the completing request is still the current one: when
`url` changes, the aborted stale fetch rejects with an `AbortError`, and that
rejection is delivered as a microtask, hence strictly after the cleanup and
the new effect body (which run synchronously during the React commit).
-/

/-- A JavaScript `Error` value as observed by the hook: a `name`
(`"Error"` for `new Error(...)`, `"AbortError"` for an abort rejection)
and a human-readable `message`. -/
structure JSError where
  name : String
  message : String
deriving DecidableEq, Repr

/-- The payload interface `Data` of App.tsx (lines 14-18):
`name: string; lastName: string; age: number`. -/
structure Data where
  name : String
  lastName : String
  age : Nat
deriving DecidableEq, Repr

/-- The record returned by `useFetch` (interface `Params<T>`, lines 68-72):
the three state cells `data`, `loading`, `error`.  `Option` models
`T | null` and `Error | null`. -/
structure Params (T : Type) where
  data : Option T
  loading : Bool
  error : Option JSError
deriving DecidableEq, Repr

/-- The initial values of the three `useState` cells (lines 80-82):
`data = null`, `loading = true`, `error = null`. -/
def initialState (T : Type) : Params T :=
  { data := none, loading := true, error := none }

/-- `response.ok` for a response with the given HTTP status: status in the
inclusive range 200-299. -/
def statusOk (status : Nat) : Bool :=
  decide (200 ≤ status) && decide (status ≤ 299)

/-- How one in-flight `fetch` settles, as observed by `fetchData`:
an HTTP response arrived (with its status, and the result of
`response.json()` should it be awaited), the fetch rejected with a
network-level error, or the fetch rejected because its controller
aborted it (an `AbortError`). -/
inductive Outcome (T : Type) where
  | response (status : Nat) (body : Except JSError T)
  | networkError (e : JSError)
  | aborted (e : JSError)

/-- The effect that the settlement handlers of `fetchData` (lines 98-119) have on the
state cells.  Non-ok status: `throw new Error("Error en la petición")`,
caught by the `catch`, which runs `setError(err)`.  Ok status: `setData`
on a parsed body plus `setError(null)`, or `setError` with the parse
error.  A rejected fetch (network error or abort) lands in the same
`catch`: the source does not distinguish an `AbortError` from any other
rejection.  The `finally` always runs `setLoading(false)`. -/
def fetchData {T : Type} (out : Outcome T) (s : Params T) : Params T :=
  match out with
  | .response status body =>
      if statusOk status then
        match body with
        | .ok jsonData => { s with data := some jsonData, error := none, loading := false }
        | .error e => { s with error := some e, loading := false }
      else
        { s with error := some ⟨"Error", "Error en la petición"⟩, loading := false }
  | .networkError e => { s with error := some e, loading := false }
  | .aborted e => { s with error := some e, loading := false }

/-- The synchronous start of the effect body (line 91): `setLoading(true)`.
The effect does not touch `data` or `error`. -/
def effectStart {T : Type} (s : Params T) : Params T :=
  { s with loading := true }

/-- One event on the event loop of the hook: the effect body runs (mount or
`url` change), or one in-flight request settles and its handlers run. -/
inductive Ev (T : Type) where
  | effectRun
  | complete (out : Outcome T)

/-- The action of one event on the state cells.  The handlers of a completed
request run on the live cells unconditionally: the source has no staleness or
abort check in `catch`/`finally`. -/
def step {T : Type} (s : Params T) : Ev T → Params T
  | .effectRun => effectStart s
  | .complete out => fetchData out s

/-- The state cells after a sequence of events on one mount, starting from
the `useState` initial values. -/
def run {T : Type} (evs : List (Ev T)) : Params T :=
  evs.foldl step (initialState T)

/-- The `Pending` variant as the spec defines it: request in flight, no
data, no error. -/
def isPending {T : Type} (s : Params T) : Prop :=
  s.loading = true ∧ s.data = none ∧ s.error = none

/-- The `Success` variant as the spec defines it: data present, no error. -/
def isSuccess {T : Type} (s : Params T) : Prop :=
  s.data.isSome = true ∧ s.error = none

/-- The `Failure` variant as the spec defines it: an error is present. -/
def isFailure {T : Type} (s : Params T) : Prop :=
  s.error.isSome = true

/-- Exactly one of the three variants holds. -/
def exactlyOneVariant {T : Type} (s : Params T) : Prop :=
  (isPending s ∧ ¬ isSuccess s ∧ ¬ isFailure s) ∨
    (¬ isPending s ∧ isSuccess s ∧ ¬ isFailure s) ∨
    (¬ isPending s ∧ ¬ isSuccess s ∧ isFailure s)

/-- States in which the cells are not all back at `loading = false`,
`data = none`, `error = none`: every reachable state satisfies this. -/
def inv {T : Type} (s : Params T) : Prop :=
  s.data = none → s.error = none → s.loading = true

lemma inv_initial (T : Type) : inv (initialState T) := by
  intro _ _; rfl

lemma inv_step {T : Type} (s : Params T) (e : Ev T) (_h : inv s) : inv (step s e) := by
  cases e with
  | effectRun => intro _ _; rfl
  | complete out =>
      cases out with
      | response status body =>
          by_cases hok : statusOk status = true
          · cases body with
            | ok j => intro hd _; simp [step, fetchData, hok] at hd
            | error e => intro _ he; simp [step, fetchData, hok] at he
          · intro _ he
            simp [step, fetchData, hok] at he
      | networkError e => intro _ he; simp [step, fetchData] at he
      | aborted e => intro _ he; simp [step, fetchData] at he

lemma inv_foldl {T : Type} (evs : List (Ev T)) (s : Params T) (h : inv s) :
    inv (evs.foldl step s) := by
  induction evs generalizing s with
  | nil => exact h
  | cons e rest ih => exact ih (step s e) (inv_step s e h)

instance {T : Type} [DecidableEq T] (s : Params T) : Decidable (isPending s) := by
  unfold isPending; infer_instance

instance {T : Type} [DecidableEq T] (s : Params T) : Decidable (isSuccess s) := by
  unfold isSuccess; infer_instance

instance {T : Type} (s : Params T) : Decidable (isFailure s) := by
  unfold isFailure; infer_instance

lemma inv_run {T : Type} (evs : List (Ev T)) : inv (run evs) :=
  inv_foldl evs (initialState T) (inv_initial T)

lemma exactlyOneVariant_of_inv {T : Type} (s : Params T) (h : inv s) :
    exactlyOneVariant s := by
  rcases s with ⟨d, l, e⟩
  cases e with
  | some err =>
      right; right
      simp [isPending, isSuccess, isFailure]
  | none =>
      cases d with
      | some v =>
          right; left
          simp [isPending, isSuccess, isFailure]
      | none =>
          left
          have hl : l = true := h rfl rfl
          subst hl
          simp [isPending, isSuccess, isFailure]

/-- The concrete payload used by the example consumer of the hook
(spec Scenario A). -/
def ana : Data :=
  { name := "Ana", lastName := "Lopez", age := 30 }

/-- The `AbortError` with which an aborted `fetch` promise rejects after
`controller.abort()` runs in the effect cleanup (lines 124-126). -/
def abortErr : JSError :=
  { name := "AbortError", message := "The operation was aborted." }

/-- `JSON.stringify` on `Data | null` values whose strings need no JSON
escaping, as used by the `App` success branch (line 53):
`JSON.stringify(null)` is the text `null`, and an object serialises its
fields in declaration order. -/
def jsonStringify (d : Option Data) : String :=
  match d with
  | none => "null"
  | some v =>
      "\x7b\"name\":\"" ++ v.name ++ "\",\"lastName\":\"" ++ v.lastName ++
        "\",\"age\":" ++ toString v.age ++ "\x7d"

/-- The textual output of the `App` component (lines 41-54) as a function of
the hook state it reads: `loading` first renders the fixed loading text,
then a present `error` renders the fixed label plus the error message,
otherwise the JSON serialisation of `data` is rendered. -/
def App (s : Params Data) : String :=
  if s.loading then "Cargando..."
  else
    match s.error with
    | some e => "UPS! Hay un error: " ++ e.message
    | none => jsonStringify s.data

/-- The Root View contract in the words of spec section 4.2, branch order
Pending, Failure, Success: `Pending` (the `loading` flag, which the spec says
takes precedence) renders a fixed loading indicator, `Failure(error)` renders
the message of the error prefixed by a fixed label, `Success(data)` renders a
JSON textual representation of the data. -/
def specRender (s : Params Data) : String :=
  if s.loading then "Cargando..."
  else
    match s.error with
    | some e => "UPS! Hay un error: " ++ e.message
    | none => jsonStringify s.data

/-- The element produced by the `Button` component: a `button` tag with the
fixed class, the forwarded `onClick` handler and the label as text.  The
handler is modelled as an optional transformer of an abstract consumer
state; `none` models a runtime-omitted (`undefined`) handler. -/
structure RenderedButton (σ : Type) where
  className : String
  onClick : Option (σ → σ)
  label : String

/-- The `Button` component (Button.tsx lines 12-18): renders a `button`
with `className="custom-button"`, `onClick={parentMethod}` and `label` as
its text. -/
def Button {σ : Type} (label : String) (parentMethod : Option (σ → σ)) :
    RenderedButton σ :=
  { className := "custom-button", onClick := parentMethod, label := label }

/-- Dispatching one activation (click) on a rendered button: the DOM calls
the attached handler once with the event; a `button` whose `onClick` is
`undefined` has no listener attached, so the click is a no-op and throws
nothing. -/
def clickOn {σ : Type} (b : RenderedButton σ) (s : σ) : σ :=
  match b.onClick with
  | some f => f s
  | none => s

/-- One full tracking session run from state `s`: the effect body runs
(`setLoading(true)`, a fresh request starts) and then that request settles
with outcome `out` and its handlers run. -/
def runSession {T : Type} (out : Outcome T) (s : Params T) : Params T :=
  step (step s Ev.effectRun) (Ev.complete out)

/-- Claim C1: the claim states that a stale request (the request of U1, after
the tracked URL changed to U2) never causes a state transition once the U2
request has started.  The code violates this: after two effect runs (U1
started, then URL change to U2 — the cleanup aborted the U1 controller and a
U2 request is in flight), the aborted U1 fetch settles, and its `catch` and
`finally` handlers do transition the live state — `error` becomes the
`AbortError` and `loading` flips to `false` — because the source checks
neither for an `AbortError` nor for staleness. -/
theorem useFetch_stale_abort_transition :
    (run [Ev.effectRun, Ev.effectRun] : Params Data).error = none ∧
    (run [Ev.effectRun, Ev.effectRun] : Params Data).loading = true ∧
    run [Ev.effectRun, Ev.effectRun, Ev.complete (Outcome.aborted abortErr)] ≠
      (run [Ev.effectRun, Ev.effectRun] : Params Data) ∧
    (run [Ev.effectRun, Ev.effectRun, Ev.complete (Outcome.aborted abortErr)] :
        Params Data).error = some abortErr ∧
    (run [Ev.effectRun, Ev.effectRun, Ev.complete (Outcome.aborted abortErr)] :
        Params Data).loading = false := by
  decide

/-- Claim C2: the claim states that when the tracker itself cancels a session
(teardown or URL change before the request resolves), the aborted completion
causes no state transition, records no Failure, and reports no error.  The
code violates this: the settlement of an aborted request runs the same
`catch`/`finally` as any other rejection, so starting from a pending session
it records the `AbortError` in the `error` cell (a `Failure`, surfaced to the
consumer) and flips `loading` to `false`. -/
theorem useFetch_aborted_completion_records_failure :
    fetchData (Outcome.aborted abortErr) (effectStart (initialState Data)) ≠
      effectStart (initialState Data) ∧
    (fetchData (Outcome.aborted abortErr) (effectStart (initialState Data))).error =
      some abortErr ∧
    (fetchData (Outcome.aborted abortErr) (effectStart (initialState Data))).loading = false ∧
    isFailure (fetchData (Outcome.aborted abortErr) (effectStart (initialState Data))) := by
  decide

/-- Claim C3 (counterexample): the claim states that whenever the tracked URL
changes, the state is fully reset to Pending (no data, no error) before any
new transition.  The code only runs `setLoading(true)`: after a session that
succeeded with payload `ana` and then a URL change, `loading` is `true` but
`data` is still `some ana`, so the state is not the Pending variant. -/
theorem useFetch_url_change_keeps_stale_data :
    (run [Ev.effectRun, Ev.complete (Outcome.response 200 (Except.ok ana)), Ev.effectRun] :
        Params Data).loading = true ∧
    (run [Ev.effectRun, Ev.complete (Outcome.response 200 (Except.ok ana)), Ev.effectRun] :
        Params Data).data = some ana ∧
    ¬ isPending
      (run [Ev.effectRun, Ev.complete (Outcome.response 200 (Except.ok ana)), Ev.effectRun] :
        Params Data) := by
  decide

/-- Claim C3 (amended): at every reachable observation point exactly one of
the three variants — Pending (loading, no data, no error), Success (data, no
error), Failure (error) — holds; however, a URL change only sets `loading`
to `true` and leaves `data` and `error` untouched, so the state after a URL
change is not in general reset to the Pending variant. -/
theorem useFetch_exactly_one_variant :
    (∀ evs : List (Ev Data), exactlyOneVariant (run evs)) ∧
    (∀ s : Params Data, step s Ev.effectRun = { s with loading := true }) :=
  ⟨fun evs => exactlyOneVariant_of_inv (run evs) (inv_run evs), fun _ => rfl⟩

/-- Claim C4: for every response whose HTTP status lies outside the 200-299
range, the tracker transitions to Failure with the fixed message
"Error en la petición" regardless of the response body, and never attempts to
parse the body: the resulting state is the same for every body value (the
right-hand side does not depend on `body`), with `error` holding the fixed
message and `loading` cleared. -/
theorem fetchData_non2xx_fixed_failure {T : Type} (status : Nat)
    (h : status < 200 ∨ 299 < status) (body : Except JSError T) (s : Params T) :
    fetchData (Outcome.response status body) s =
      { s with error := some ⟨"Error", "Error en la petición"⟩, loading := false } ∧
    isFailure (fetchData (Outcome.response status body) s) := by
  have hok : statusOk status = false := by
    simp only [statusOk, Bool.and_eq_false_iff, decide_eq_false_iff_not, not_le]
    omega
  constructor
  · simp [fetchData, hok]
  · simp [fetchData, hok, isFailure]

/-- Witness for C4 at status 404 with a well-formed body. -/
theorem fetchData_non2xx_fixed_failure_witness :
    (404 < 200 ∨ 299 < 404) ∧
    (fetchData (Outcome.response 404 (Except.ok ana)) (initialState Data) =
        { initialState Data with
            error := some ⟨"Error", "Error en la petición"⟩, loading := false } ∧
      isFailure (fetchData (Outcome.response 404 (Except.ok ana)) (initialState Data))) :=
  ⟨Or.inr (by decide),
    fetchData_non2xx_fixed_failure 404 (Or.inr (by decide)) (Except.ok ana) (initialState Data)⟩

/-- Claim C5: for every response with HTTP status in [200,299) whose body
parses as the payload type, the final state is Success with exactly the
decoded body, no error, and loading cleared. -/
theorem fetchData_2xx_parsed_success {T : Type} (status : Nat) (h1 : 200 ≤ status)
    (h2 : status < 299) (j : T) (s : Params T) :
    fetchData (Outcome.response status (Except.ok j)) s =
      { data := some j, loading := false, error := none } := by
  have hok : statusOk status = true := by
    simp only [statusOk, Bool.and_eq_true, decide_eq_true_eq]
    omega
  simp [fetchData, hok]

/-- Witness for C5 at status 200 with the Scenario A payload. -/
theorem fetchData_2xx_parsed_success_witness :
    (200 ≤ 200 ∧ 200 < 299) ∧
    fetchData (Outcome.response 200 (Except.ok ana)) (initialState Data) =
      { data := some ana, loading := false, error := none } :=
  ⟨by decide, fetchData_2xx_parsed_success 200 (by decide) (by decide) ana (initialState Data)⟩

/-- Claim C6: for every response with HTTP status in [200,299) whose body
fails to parse as the payload type, the final state is Failure carrying the
parse error (and hence its message), with loading cleared. -/
theorem fetchData_parse_failure {T : Type} (status : Nat) (h1 : 200 ≤ status)
    (h2 : status < 299) (e : JSError) (s : Params T) :
    fetchData (Outcome.response status (Except.error e)) s =
      { s with error := some e, loading := false } ∧
    isFailure (fetchData (Outcome.response status (Except.error e)) s) := by
  have hok : statusOk status = true := by
    simp only [statusOk, Bool.and_eq_true, decide_eq_true_eq]
    omega
  constructor
  · simp [fetchData, hok]
  · simp [fetchData, hok, isFailure]

/-- Witness for C6 at status 200 with a JSON syntax error. -/
theorem fetchData_parse_failure_witness :
    (200 ≤ 200 ∧ 200 < 299) ∧
    (fetchData (Outcome.response 200 (Except.error ⟨"SyntaxError", "Unexpected token in JSON"⟩))
        (initialState Data) =
      { initialState Data with
          error := some ⟨"SyntaxError", "Unexpected token in JSON"⟩, loading := false } ∧
    isFailure
      (fetchData (Outcome.response 200 (Except.error ⟨"SyntaxError", "Unexpected token in JSON"⟩))
        (initialState Data))) :=
  ⟨by decide,
    fetchData_parse_failure 200 (by decide) (by decide)
      ⟨"SyntaxError", "Unexpected token in JSON"⟩ (initialState Data)⟩

/-- Claim C7: the Root View is a pure function of the hook state that takes
exactly one of three mutually exclusive branches, evaluated in the order
Pending, Failure, Success: it coincides with the render function written
from the words of the spec, and for every state exactly one branch fires —
`loading` renders the fixed loading text, otherwise a present error renders
the fixed label plus the message of the error, otherwise the JSON
serialisation of the data is rendered. -/
theorem app_render_matches_spec (s : Params Data) :
    App s = specRender s ∧
    ((s.loading = true ∧ App s = "Cargando...") ∨
      (s.loading = false ∧
        ∃ e, s.error = some e ∧ App s = "UPS! Hay un error: " ++ e.message) ∨
      (s.loading = false ∧ s.error = none ∧ App s = jsonStringify s.data)) := by
  rcases s with ⟨d, l, e⟩
  cases l with
  | false =>
      cases e with
      | none => exact ⟨rfl, Or.inr (Or.inr ⟨rfl, rfl, rfl⟩)⟩
      | some err => exact ⟨rfl, Or.inr (Or.inl ⟨rfl, err, rfl, rfl⟩)⟩
  | true => exact ⟨rfl, Or.inl ⟨rfl, rfl⟩⟩

/-- Claim C8: running two tracking sessions in sequence (the second starting
after the first completed) against the same fixed server outcome produces the
same final state both times: one session run is idempotent on the state
cells. -/
theorem useFetch_sequential_sessions_idempotent {T : Type} (out : Outcome T) (s : Params T) :
    runSession out (runSession out s) = runSession out s := by
  cases out with
  | response status body =>
      cases hok : statusOk status with
      | false => simp [runSession, step, fetchData, effectStart, hok]
      | true =>
          cases body with
          | ok j => simp [runSession, step, fetchData, effectStart, hok]
          | error e => simp [runSession, step, fetchData, effectStart, hok]
  | networkError _e => simp [runSession, step, fetchData, effectStart]
  | aborted _e => simp [runSession, step, fetchData, effectStart]

/-- Claim C9: an activation of the rendered Button applies the supplied
handler exactly once to the consumer state, and when the handler is omitted
(`undefined` at runtime, so no listener is attached) the activation is a
no-op that returns the state unchanged and throws nothing. -/
theorem button_activation_behavior {σ : Type} (label : String) (f : σ → σ) (s : σ) :
    clickOn (Button label (some f)) s = f s ∧ clickOn (Button label none) s = s :=
  ⟨rfl, rfl⟩

/-- Claim C10: before any network completion is processed — after any number
of synchronous effect starts but no settlement events — the hook state equals
the `useState` initial values: `data = null`, `loading = true`,
`error = null`, i.e. the consumer observes the Pending variant first. -/
theorem useFetch_first_observation_pending (evs : List (Ev Data))
    (h : ∀ e ∈ evs, e = Ev.effectRun) :
    run evs = initialState Data ∧ isPending (run evs) := by
  have key : ∀ l : List (Ev Data), (∀ e ∈ l, e = Ev.effectRun) →
      l.foldl step (initialState Data) = initialState Data := by
    intro l
    induction l with
    | nil => intro _; rfl
    | cons a rest ih =>
        intro hl
        have ha : a = Ev.effectRun := hl a (List.mem_cons_self a rest)
        subst ha
        rw [List.foldl_cons]
        exact ih fun e he => hl e (List.mem_cons_of_mem _ he)
  have h1 : run evs = initialState Data := key evs h
  exact ⟨h1, by rw [h1]; exact ⟨rfl, rfl, rfl⟩⟩

/-- Witness for C10 on the trace with one effect run and no settlements. -/
theorem useFetch_first_observation_pending_witness :
    (∀ e ∈ [Ev.effectRun], e = (Ev.effectRun : Ev Data)) ∧
    (run [Ev.effectRun] = initialState Data ∧
      isPending (run ([Ev.effectRun] : List (Ev Data)))) :=
  ⟨fun _e he => List.mem_singleton.mp he,
    useFetch_first_observation_pending [Ev.effectRun] fun _e he => List.mem_singleton.mp he⟩
